import Mathlib

/-
Verification of the physics and collision core of the Black_Hole_Universe
simulation (a Rust crate built on a game engine).

Shallow embedding conventions:
- f32 values are modelled as exact real numbers; f32 arithmetic is modelled
  by exact arithmetic on the reals (the claims under study are algebraic or
  exercised at small exact inputs).
- The Gauss sampler module works over the rationals, which model the float
  draws exactly for the wrap arithmetic in question.
- Movable ids are u32 values handed out by two global atomic counters; the
  counters are modelled by explicit state passing (structure Counters) and
  the ids as naturals, since no claim depends on u32 overflow.
- BTreeSet of Movable references ordered by id (the CollisionSet payload) is
  modelled as a Finset of ids.
- fallible paths (the Option returns of gen_line_segment and
  minimum_distance) are modelled with Option.
-/

namespace BlackHoleUniverse

noncomputable section

/-- constant from gamestate.rs: pub const UNIVERSE_SIZE: f32 = 25_000.0f32 -/
def UNIVERSE_SIZE : ℝ := 25000

/-- constants of impl Movable in movables.rs -/
def MINIMUM_RADIUS : ℝ := 1

/-- const G: f32 = 100_000_000.0 -/
def G : ℝ := 100000000

/-- const EPSILON: f32 = 1000.0 -/
def EPSILON : ℝ := 1000

/-- const MAXACCELERATION: f32 = 1.0E4 -/
def MAXACCELERATION : ℝ := 10000

/-- const MAXVELOCITY: f32 = 10_000.0 -/
def MAXVELOCITY : ℝ := 10000

/-- enum ObjectType from movables.rs -/
inductive ObjectType where
  | BlackHole : ObjectType
  | World : ObjectType
deriving DecidableEq

/-- struct Position from traits/collisions.rs (field order as in source) -/
structure Position where
  x_prev : ℝ
  y_prev : ℝ
  x : ℝ
  y : ℝ

/-- struct Velocity from movables.rs -/
structure Velocity where
  vx : ℝ
  vy : ℝ

/-- struct Acceleration from movables.rs -/
structure Acceleration where
  ax : ℝ
  ay : ℝ

/-- struct Size from movables.rs -/
structure Size where
  radius : ℝ
  mass : ℝ

/-- struct Movable from movables.rs; the ID newtype is inlined as a natural -/
structure Movable where
  id : ℕ
  otype : ObjectType
  position : Position
  velocity : Velocity
  size : Size

/-- impl Default for Movable from movables.rs -/
def movableDefault : Movable where
  id := 0
  otype := ObjectType.BlackHole
  position := { x_prev := 0, y_prev := 0, x := 0, y := 0 }
  velocity := { vx := 0, vy := 0 }
  size := { radius := 0, mass := 0 }

/-- the two global atomic id counters BLACKHOLECOUNT and WORLDCOUNT from
movables.rs, modelled as explicit state -/
structure Counters where
  blackholes : ℕ
  worlds : ℕ

/-- Movable::new from movables.rs: fetch a fresh id from the counter of the
given kind (fetch_add returns the old value) and fill the rest from default -/
def Movable.new (otype : ObjectType) (c : Counters) : Movable × Counters :=
  match otype with
  | ObjectType.BlackHole =>
      ({ movableDefault with id := c.blackholes, otype := ObjectType.BlackHole },
       { c with blackholes := c.blackholes + 1 })
  | ObjectType.World =>
      ({ movableDefault with id := c.worlds, otype := ObjectType.World },
       { c with worlds := c.worlds + 1 })

/-- Movable::get_id from movables.rs -/
def Movable.get_id (m : Movable) : ℕ :=
  m.id

/-- Movable::set_position from movables.rs -/
def Movable.set_position (m : Movable) (x y : ℝ) : Movable :=
  { m with position := { m.position with x := x, y := y } }

/-- Movable::set_velocity from movables.rs. Both branch conditions test
vx < 0.0 exactly as the source does (the second if in the source reads
`if vx < 0.0` although it stores vy). -/
def Movable.set_velocity (m : Movable) (vx vy : ℝ) : Movable :=
  { m with velocity :=
      { vx := if vx < 0 then max vx (-MAXVELOCITY) else min vx MAXVELOCITY,
        vy := if vx < 0 then max vy (-MAXVELOCITY) else min vy MAXVELOCITY } }

/-- Movable::set_mass from movables.rs: store the mass and derive the radius
from the kind-specific mass-radius law; powf is modelled by Real rpow -/
def Movable.set_mass (m : Movable) (mass : ℝ) : Movable :=
  let radius :=
    match m.otype with
    | ObjectType.BlackHole => max (3 * mass) MINIMUM_RADIUS
    | ObjectType.World =>
        if mass ≤ 5 then max (1.02 * mass ^ (0.27 : ℝ)) MINIMUM_RADIUS
        else if mass ≤ 127 then max (18.6 * mass ^ (-0.06 : ℝ)) MINIMUM_RADIUS
        else max (0.56 * mass ^ (0.67 : ℝ)) MINIMUM_RADIUS
  { m with size := { radius := radius, mass := mass } }

/-- Movable::set_radius from movables.rs: store the radius and derive the mass
by the bracket inverses of the mass-radius law -/
def Movable.set_radius (m : Movable) (radius : ℝ) : Movable :=
  let mass :=
    match m.otype with
    | ObjectType.BlackHole => radius / 3
    | ObjectType.World =>
        if radius < 1.575151 then (radius / 1.02) ^ ((100 : ℝ) / 27)
        else if radius < 13.90864 then (radius / 18.6) ^ ((-100 : ℝ) / 6)
        else (radius / 0.56) ^ ((100 : ℝ) / 67)
  { m with size := { radius := radius, mass := mass } }

/-- Movable::build from movables.rs: snapshot the chained fields, copying the
current coordinates into the previous-frame coordinates -/
def Movable.build (m : Movable) : Movable where
  id := m.id
  otype := m.otype
  position := { x := m.position.x, x_prev := m.position.x,
                y := m.position.y, y_prev := m.position.y }
  velocity := { vx := m.velocity.vx, vy := m.velocity.vy }
  size := { radius := m.size.radius, mass := m.size.mass }

/-- the per-axis wrapped-displacement logic of Movable::calculate_acceleration
from movables.rs (the identical x and y blocks factored into one function):
take the straight difference, and if the wrapped path is shorter replace it by
the wrap distance with inverted sign -/
def wrap_component (d_straight : ℝ) : ℝ :=
  let wrap_d := UNIVERSE_SIZE - |d_straight|
  if wrap_d < |d_straight| then
    if d_straight < 0 then wrap_d else -wrap_d
  else d_straight

/-- f32::atan2 modelled by the complex argument, which has the same
quadrant-aware convention on exact inputs -/
def atan2 (y x : ℝ) : ℝ :=
  Complex.arg { re := x, im := y }

/-- Movable::calculate_acceleration from movables.rs -/
def Movable.calculate_acceleration (m other : Movable) : Acceleration :=
  let dx := wrap_component (other.position.x - m.position.x)
  let dy := wrap_component (other.position.y - m.position.y)
  let r := dx ^ 2 + dy ^ 2
  let a := min (G * other.size.mass / (r + EPSILON)) MAXACCELERATION
  let theta := atan2 dy dx
  { ax := a * Real.cos theta, ay := a * Real.sin theta }

/-- impl PartialEq for Movable from movables.rs: compares the numeric ids
only, the kind is ignored -/
def movable_eq (a b : Movable) : Bool :=
  a.id == b.id

/-- impl Ord for Movable from movables.rs: compares get_id only -/
def movable_cmp (a b : Movable) : Ordering :=
  if a.get_id < b.get_id then Ordering.lt
  else if a.get_id > b.get_id then Ordering.gt
  else Ordering.eq

/-- Movable::update_velocity from movables.rs: accumulate the acceleration
induced by every other Movable, skipping any other that compares equal to
self under the id-only PartialEq, then integrate over the time step -/
def Movable.update_velocity (m : Movable) (others : List Movable) (time : ℝ) :
    Velocity :=
  let acc := others.foldl
    (fun (acc : Acceleration) (other : Movable) =>
      if movable_eq m other then acc
      else { ax := acc.ax + (m.calculate_acceleration other).ax,
             ay := acc.ay + (m.calculate_acceleration other).ay })
    ({ ax := 0, ay := 0 } : Acceleration)
  { vx := m.velocity.vx + acc.ax * time, vy := m.velocity.vy + acc.ay * time }

/-- Movable::generate_blackhole from movables.rs: two-body merge with the
center-of-mass position, momentum-conserving velocity, summed mass, built
through the Movable::new / set_position / set_velocity / set_mass / build
chain of the source -/
def generate_blackhole (one two : Movable) (c : Counters) : Movable × Counters :=
  let new_mass := one.size.mass + two.size.mass
  let center_of_mass_x :=
    (one.size.mass * one.position.x + two.size.mass * two.position.x) /
      (one.size.mass + two.size.mass)
  let center_of_mass_y :=
    (one.size.mass * one.position.y + two.size.mass * two.position.y) /
      (one.size.mass + two.size.mass)
  let new_velocity_x :=
    (one.size.mass * one.velocity.vx + two.size.mass * two.velocity.vx) / new_mass
  let new_velocity_y :=
    (one.size.mass * one.velocity.vy + two.size.mass * two.velocity.vy) / new_mass
  let nc := Movable.new ObjectType.BlackHole c
  ((((nc.1.set_position center_of_mass_x center_of_mass_y).set_velocity
        new_velocity_x new_velocity_y).set_mass new_mass).build,
   nc.2)

/-- Position::new from traits/collisions.rs -/
def Position.new (x y : ℝ) : Position where
  x := x
  y := y
  x_prev := x
  y_prev := y

/-- Position::distance_to from traits/collisions.rs -/
def Position.distance_to (p other : Position) : ℝ :=
  Real.sqrt ((p.x - other.x) ^ 2 + (p.y - other.y) ^ 2)

/-- struct LineSegment from traits/collisions.rs: the segment between the
previous and current position in implicit form a*x + b*y = c -/
structure LineSegment where
  pos : Position
  a : ℝ
  b : ℝ
  c : ℝ

/-- Position::gen_line_segment from traits/collisions.rs: None when the body
did not move this frame (both coefficients zero) -/
def Position.gen_line_segment (p : Position) : Option LineSegment :=
  let a := p.y_prev - p.y
  let b := p.x - p.x_prev
  let c := p.x * p.y_prev - p.x_prev * p.y
  if a = 0 ∧ b = 0 then none
  else some { pos := p, a := a, b := b, c := c }

/-- LineSegment::distance_to_pt from traits/collisions.rs: perpendicular
distance when the foot of the perpendicular lies in the segment bounding box,
otherwise the nearer endpoint distance -/
def LineSegment.distance_to_pt (l : LineSegment) (x y : ℝ) : ℝ :=
  let factor := (l.a * x + l.b * y + l.c) / (l.a * l.a + l.b * l.b)
  let x_on_line := x - l.a * factor
  let y_on_line := y - l.b * factor
  let within_x := min l.pos.x l.pos.x_prev ≤ x_on_line ∧
    max l.pos.x l.pos.x_prev ≥ x_on_line
  let within_y := min l.pos.y l.pos.y_prev ≤ y_on_line ∧
    max l.pos.y l.pos.y_prev ≥ y_on_line
  if within_x ∧ within_y then
    |l.a * x + l.b * y + l.c| / Real.sqrt (l.a * l.a + l.b * l.b)
  else
    let d1 := (l.pos.x - x) ^ 2 + (l.pos.y - y) ^ 2
    let d2 := (l.pos.x_prev - x) ^ 2 + (l.pos.y_prev - y) ^ 2
    if d1 < d2 then Real.sqrt d1 else Real.sqrt d2

/-- CollisionDetection::minimum_distance from traits/collisions.rs, with
`one` standing for self.get_position(). The early returns of the `?`
operator on the two gen_line_segment calls are the fallthrough match arm.
The in-segment test on the intersection point is transcribed exactly as in
the source, comparisons included: min >= int and max <= int. -/
def minimum_distance (one two : Position) : Option ℝ :=
  match one.gen_line_segment, two.gen_line_segment with
  | some l1, some l2 =>
    let det := l1.b * l2.a - l2.b * l1.a
    let int_x := (l2.b * l1.c - l1.b * l2.c) / det
    let int_y := (l1.a * l2.c - l2.a * l1.c) / det
    let fallback := some (min (l1.distance_to_pt two.x two.y)
      (l1.distance_to_pt two.x_prev two.y_prev))
    if det ≠ 0 then
      if min one.x one.x_prev ≥ int_x ∧ max one.x one.x_prev ≤ int_x ∧
          min one.y one.y_prev ≥ int_y ∧ max one.y one.y_prev ≤ int_y then
        some 0
      else fallback
    else fallback
  | _, _ => none

/-- CollisionDetection::collided from traits/collisions.rs, specialised to
Movable whose get_position is the position field and whose get_hitbox is
Circle(size.radius): a None minimum distance is reported as no collision,
otherwise the circle hitboxes collide iff the minimum distance is at most the
sum of the radii -/
def collided (m other : Movable) : Prop :=
  match minimum_distance m.position other.position with
  | none => False
  | some min_r => min_r ≤ m.size.radius + other.size.radius

/-- CollisionSet from movables.rs: a BTreeSet of Movable references ordered
and deduplicated by id, modelled as the finite set of those ids -/
abbrev CollisionSet := Finset ℕ

/-- CollisionSet::merge_intersection from movables.rs: the union when the two
sets intersect, None otherwise -/
def CollisionSet.merge_intersection (one two : CollisionSet) :
    Option CollisionSet :=
  if (one ∩ two).Nonempty then some (one ∪ two) else none

/-- the loop of CollisionFrame::push from movables.rs: walk the array, replace
the first item that merge_intersection combines with the new set and stop
(the break in the source); None when no item intersects -/
def CollisionFrame.push_loop : List CollisionSet → CollisionSet →
    Option (List CollisionSet)
  | [], _ => none
  | item :: rest, new =>
    match CollisionSet.merge_intersection item new with
    | some n => some (n :: rest)
    | none => Option.map (fun l => item :: l) (CollisionFrame.push_loop rest new)

/-- CollisionFrame::push from movables.rs: merge into the first intersecting
existing set, else append as a new set; the Bool is the found indicator the
source returns -/
def CollisionFrame.push (frame : List CollisionSet) (new : CollisionSet) :
    List CollisionSet × Bool :=
  match CollisionFrame.push_loop frame new with
  | some merged => (merged, true)
  | none => (frame ++ [new], false)

/-- enum GaussBoundary from gauss.rs -/
inductive GaussBoundary where
  | None : GaussBoundary
  | Lower : ℚ → GaussBoundary
  | Upper : ℚ → GaussBoundary
  | ClampBoth : ℚ × ℚ → GaussBoundary
  | WrapBoth : ℚ × ℚ → GaussBoundary

/-- the first while loop of the WrapBoth arm of Gauss::sample from gauss.rs:
while wrapped < lower, wrapped += -lower + upper. The lower < upper guard
makes the recursion well founded; under it the function agrees with the
source loop (with an inverted range the source loop does not terminate). -/
def Gauss.wrap_up (lower upper wrapped : ℚ) : ℚ :=
  if h : lower < upper ∧ wrapped < lower then
    Gauss.wrap_up lower upper (wrapped + (-lower + upper))
  else wrapped
termination_by (⌈(lower - wrapped) / (upper - lower)⌉).toNat
decreasing_by
  obtain ⟨hlu, hwl⟩ := h
  have hw : (0 : ℚ) < upper - lower := by linarith
  have harg : lower - (wrapped + (-lower + upper)) =
      lower - wrapped - (upper - lower) := by ring
  have hdiv : (lower - (wrapped + (-lower + upper))) / (upper - lower) =
      (lower - wrapped) / (upper - lower) - 1 := by
    rw [harg, sub_div, div_self hw.ne']
  have hceil : 0 < ⌈(lower - wrapped) / (upper - lower)⌉ :=
    Int.ceil_pos.mpr (div_pos (by linarith) hw)
  rw [hdiv, Int.ceil_sub_one]
  omega

/-- the second while loop of the WrapBoth arm of Gauss::sample from gauss.rs:
while wrapped > upper, wrapped += -upper + lower, guarded like wrap_up -/
def Gauss.wrap_down (lower upper wrapped : ℚ) : ℚ :=
  if h : lower < upper ∧ upper < wrapped then
    Gauss.wrap_down lower upper (wrapped + (-upper + lower))
  else wrapped
termination_by (⌈(wrapped - upper) / (upper - lower)⌉).toNat
decreasing_by
  obtain ⟨hlu, hwl⟩ := h
  have hw : (0 : ℚ) < upper - lower := by linarith
  have harg : wrapped + (-upper + lower) - upper =
      wrapped - upper - (upper - lower) := by ring
  have hdiv : (wrapped + (-upper + lower) - upper) / (upper - lower) =
      (wrapped - upper) / (upper - lower) - 1 := by
    rw [harg, sub_div, div_self hw.ne']
  have hceil : 0 < ⌈(wrapped - upper) / (upper - lower)⌉ :=
    Int.ceil_pos.mpr (div_pos (by linarith) hw)
  rw [hdiv, Int.ceil_sub_one]
  omega

/-- Gauss::sample from gauss.rs with the normal draw passed in as `value`
(in the source, value = self.distribution.sample(generator)); the match on
the boundary policy is transcribed arm by arm -/
def Gauss.sample (boundary : GaussBoundary) (value : ℚ) : ℚ :=
  match boundary with
  | GaussBoundary.None => value
  | GaussBoundary.Lower n => max value n
  | GaussBoundary.Upper n => min value n
  | GaussBoundary.ClampBoth (lower, upper) => min (max value lower) upper
  | GaussBoundary.WrapBoth (lower, upper) =>
      Gauss.wrap_down lower upper (Gauss.wrap_up lower upper value)

/-- concrete body for the C2 scenario: stationary at the origin, radius 2 -/
def bodyA : Movable :=
  { movableDefault with
      position := { x_prev := 0, y_prev := 0, x := 0, y := 0 },
      size := { radius := 2, mass := 1 } }

/-- concrete body for the C2 scenario: swept from (-100, 0) to (100, 0)
within one frame, radius 3 -/
def bodyB : Movable :=
  { movableDefault with
      position := { x_prev := -100, y_prev := 0, x := 100, y := 0 },
      size := { radius := 3, mass := 1 } }

/-- concrete body for the C4 scenario: stationary at (1, 0), radius 3 -/
def bodyC : Movable :=
  { movableDefault with
      position := { x_prev := 1, y_prev := 0, x := 1, y := 0 },
      size := { radius := 3, mass := 1 } }

/-- concrete segment for C3: from (-1, -1) to (1, 1) -/
def segOne : Position :=
  { x_prev := -1, y_prev := -1, x := 1, y := 1 }

/-- concrete segment for C3: from (-1, 1) to (1, -1); it crosses segOne at
the origin, which is interior to both bounding boxes -/
def segTwo : Position :=
  { x_prev := -1, y_prev := 1, x := 1, y := -1 }

/-- concrete black hole for the C5 scenario: mass 10 at the origin, at rest -/
def bh1 : Movable :=
  { movableDefault with size := { radius := 30, mass := 10 } }

/-- concrete black hole for the C5 scenario: mass 20 at (5, 0), at rest -/
def bh2 : Movable :=
  { movableDefault with
      position := { x_prev := 5, y_prev := 0, x := 5, y := 0 },
      size := { radius := 60, mass := 20 } }

/-- helper: the per-axis wrapped displacement is odd; negating the straight
difference negates the wrapped result -/
theorem wrap_component_neg (d : ℝ) : wrap_component (-d) = -wrap_component d := by
  simp only [wrap_component, abs_neg]
  rcases lt_trichotomy d 0 with hd | hd | hd
  · rw [abs_of_neg hd]
    split_ifs <;> linarith
  · subst hd
    norm_num [UNIVERSE_SIZE]
  · rw [abs_of_pos hd]
    split_ifs <;> linarith

/-- C1: pushing CollisionSets through CollisionFrame::push does NOT keep the
frame pairwise disjoint in general. The two-set transitive case works:
pushing the sets of ids 1-2 and then 2-3 leaves the single set 1-2-3. But a
pushed set that intersects two existing sets is merged only into the first
one (the break in the loop), and the frame [ 1 2 3 5 , 3 4 ] it leaves
behind has the member 3 in two different sets. -/
theorem collision_frame_push_not_disjoint :
    (CollisionFrame.push (CollisionFrame.push [] {1, 2}).1 {2, 3}).1 =
      [{1, 2, 3}] ∧
    (CollisionFrame.push (CollisionFrame.push
        (CollisionFrame.push [] {1, 2}).1 {3, 4}).1 {2, 3, 5}).1 =
      [{1, 2, 3, 5}, {3, 4}] ∧
    ¬ List.Pairwise (fun s t : CollisionSet => s ∩ t = ∅)
      (CollisionFrame.push (CollisionFrame.push
        (CollisionFrame.push [] {1, 2}).1 {3, 4}).1 {2, 3, 5}).1 := by
  decide

/-- C6: the mass-radius round trip fails on the BlackHole law: a black hole
of mass 0.1 is given radius max(3 * 0.1, MINIMUM_RADIUS) = 1 by set_mass,
and set_radius maps radius 1 back to mass 1/3, far from 0.1. -/
theorem blackhole_mass_radius_roundtrip_fails :
    (movableDefault.set_mass (1 / 10)).size.radius = 1 ∧
    ((movableDefault.set_mass (1 / 10)).set_radius
        (movableDefault.set_mass (1 / 10)).size.radius).size.mass = 1 / 3 ∧
    ((1 : ℝ) / 3) ≠ 1 / 10 := by
  norm_num [Movable.set_mass, Movable.set_radius, movableDefault,
    MINIMUM_RADIUS, max_def]

/-- C7: set_velocity does not clamp the y component by its own sign: both
branch conditions in the source test vx, so the input (vx, vy) = (0, -20000)
stores vy = -20000, whose magnitude exceeds MAXVELOCITY = 10000. -/
theorem set_velocity_vy_clamp_wrong_axis :
    (movableDefault.set_velocity 0 (-20000)).velocity.vy = -20000 ∧
    MAXVELOCITY < |(movableDefault.set_velocity 0 (-20000)).velocity.vy| := by
  norm_num [Movable.set_velocity, movableDefault, MAXVELOCITY, min_def,
    abs_of_nonpos]

/-- C8: the wrapped displacement computed inside calculate_acceleration from
a body toward another is, on each axis, the exact negation of the wrapped
displacement computed in the opposite direction. -/
theorem wrapped_displacement_antisymmetric (a b : Movable) :
    wrap_component (b.position.x - a.position.x) =
      -wrap_component (a.position.x - b.position.x) ∧
    wrap_component (b.position.y - a.position.y) =
      -wrap_component (a.position.y - b.position.y) := by
  constructor
  · rw [show b.position.x - a.position.x =
      -(a.position.x - b.position.x) by ring, wrap_component_neg]
  · rw [show b.position.y - a.position.y =
      -(a.position.y - b.position.y) by ring, wrap_component_neg]

/-- helper: the first wrap loop never returns below the lower bound, and it
never overshoots past the upper bound when it starts at or below it -/
theorem wrap_up_bounds (lower upper : ℚ) (h : lower < upper) (x : ℚ) :
    lower ≤ Gauss.wrap_up lower upper x ∧
    (x ≤ upper → Gauss.wrap_up lower upper x ≤ upper) := by
  suffices H : ∀ n y, (⌈(lower - y) / (upper - lower)⌉).toNat = n →
      lower ≤ Gauss.wrap_up lower upper y ∧
      (y ≤ upper → Gauss.wrap_up lower upper y ≤ upper) from H _ x rfl
  intro n
  induction n using Nat.strong_induction_on with
  | _ n ih =>
    intro y hn
    rw [Gauss.wrap_up]
    split_ifs with hcond
    · obtain ⟨hlu, hyl⟩ := hcond
      have hw : (0 : ℚ) < upper - lower := by linarith
      have harg : lower - (y + (-lower + upper)) =
          lower - y - (upper - lower) := by ring
      have hdiv : (lower - (y + (-lower + upper))) / (upper - lower) =
          (lower - y) / (upper - lower) - 1 := by
        rw [harg, sub_div, div_self hw.ne']
      have hceil : 0 < ⌈(lower - y) / (upper - lower)⌉ :=
        Int.ceil_pos.mpr (div_pos (by linarith) hw)
      have hm : (⌈(lower - (y + (-lower + upper))) / (upper - lower)⌉).toNat < n := by
        rw [hdiv, Int.ceil_sub_one]
        omega
      have hrec := ih _ hm (y + (-lower + upper)) rfl
      exact ⟨hrec.1, fun _ => hrec.2 (by linarith)⟩
    · push_neg at hcond
      exact ⟨hcond h, fun hy => hy⟩

/-- helper: the second wrap loop never returns above the upper bound, and it
never undershoots past the lower bound when it starts at or above it -/
theorem wrap_down_bounds (lower upper : ℚ) (h : lower < upper) (x : ℚ) :
    Gauss.wrap_down lower upper x ≤ upper ∧
    (lower ≤ x → lower ≤ Gauss.wrap_down lower upper x) := by
  suffices H : ∀ n y, (⌈(y - upper) / (upper - lower)⌉).toNat = n →
      Gauss.wrap_down lower upper y ≤ upper ∧
      (lower ≤ y → lower ≤ Gauss.wrap_down lower upper y) from H _ x rfl
  intro n
  induction n using Nat.strong_induction_on with
  | _ n ih =>
    intro y hn
    rw [Gauss.wrap_down]
    split_ifs with hcond
    · obtain ⟨hlu, huy⟩ := hcond
      have hw : (0 : ℚ) < upper - lower := by linarith
      have harg : y + (-upper + lower) - upper =
          y - upper - (upper - lower) := by ring
      have hdiv : (y + (-upper + lower) - upper) / (upper - lower) =
          (y - upper) / (upper - lower) - 1 := by
        rw [harg, sub_div, div_self hw.ne']
      have hceil : 0 < ⌈(y - upper) / (upper - lower)⌉ :=
        Int.ceil_pos.mpr (div_pos (by linarith) hw)
      have hm : (⌈(y + (-upper + lower) - upper) / (upper - lower)⌉).toNat < n := by
        rw [hdiv, Int.ceil_sub_one]
        omega
      have hrec := ih _ hm (y + (-upper + lower)) rfl
      exact ⟨hrec.1, fun _ => hrec.2 (by linarith)⟩
    · push_neg at hcond
      exact ⟨hcond h, fun hy => hy⟩

/-- C9: for every draw and every bounds pair with lower < upper, the WrapBoth
arm of Gauss::sample lands in the closed interval from lower to upper by
repeatedly adding or subtracting the range width. -/
theorem sample_wrap_both_in_range (lower upper value : ℚ) (h : lower < upper) :
    lower ≤ Gauss.sample (GaussBoundary.WrapBoth (lower, upper)) value ∧
    Gauss.sample (GaussBoundary.WrapBoth (lower, upper)) value ≤ upper := by
  have h1 := wrap_up_bounds lower upper h value
  have h2 := wrap_down_bounds lower upper h (Gauss.wrap_up lower upper value)
  simp only [Gauss.sample]
  exact ⟨h2.2 h1.1, h2.1⟩

/-- C9 witness: a draw of 35 under WrapBoth (-10, 10) is inside the range by
the theorem, and evaluates to -5 (two subtractions of the width 20). -/
theorem sample_wrap_both_in_range_witness :
    ((-10 : ℚ) < 10) ∧
    ((-10 : ℚ) ≤ Gauss.sample (GaussBoundary.WrapBoth (-10, 10)) 35 ∧
      Gauss.sample (GaussBoundary.WrapBoth (-10, 10)) 35 ≤ 10) ∧
    Gauss.sample (GaussBoundary.WrapBoth (-10, 10)) 35 = -5 := by
  refine ⟨by norm_num, sample_wrap_both_in_range (-10) 10 35 (by norm_num), ?_⟩
  have e1 : Gauss.wrap_up (-10 : ℚ) 10 35 = 35 := by
    rw [Gauss.wrap_up, dif_neg (by norm_num)]
  have e2 : Gauss.wrap_down (-10 : ℚ) 10 35 = Gauss.wrap_down (-10) 10 15 := by
    rw [Gauss.wrap_down,
      dif_pos (⟨by norm_num, by norm_num⟩ : ((-10 : ℚ) < 10 ∧ (10 : ℚ) < 35))]
    norm_num
  have e3 : Gauss.wrap_down (-10 : ℚ) 10 15 = Gauss.wrap_down (-10) 10 (-5) := by
    rw [Gauss.wrap_down,
      dif_pos (⟨by norm_num, by norm_num⟩ : ((-10 : ℚ) < 10 ∧ (10 : ℚ) < 15))]
    norm_num
  have e4 : Gauss.wrap_down (-10 : ℚ) 10 (-5) = -5 := by
    rw [Gauss.wrap_down, dif_neg (by norm_num)]
  simp only [Gauss.sample, e1, e2, e3, e4]

/-- C10: Movable equality and ordering look only at the numeric id and ignore
the kind, while the ids come from two independent per-kind counters, so the
first BlackHole and the first World receive the same numeric id 0 with
different kinds; any two Movables with equal ids compare equal under the
id-only PartialEq, compare as Ordering.eq under the id-only Ord (so an
id-ordered set holds at most one of them), and update_velocity skips the
gravitational contribution between them, leaving the velocity unchanged. -/
theorem movable_identity_by_id_only :
    ((Movable.new ObjectType.BlackHole { blackholes := 0, worlds := 0 }).1.get_id =
        (Movable.new ObjectType.World
          (Movable.new ObjectType.BlackHole
            { blackholes := 0, worlds := 0 }).2).1.get_id ∧
      (Movable.new ObjectType.BlackHole { blackholes := 0, worlds := 0 }).1.otype ≠
        (Movable.new ObjectType.World
          (Movable.new ObjectType.BlackHole
            { blackholes := 0, worlds := 0 }).2).1.otype) ∧
    ∀ a b : Movable, a.get_id = b.get_id →
      movable_eq a b = true ∧
      movable_cmp a b = Ordering.eq ∧
      ∀ t : ℝ, a.update_velocity [b] t = a.velocity := by
  refine ⟨⟨by simp [Movable.new, Movable.get_id, movableDefault],
    by simp [Movable.new, movableDefault]⟩, ?_⟩
  intro a b hid
  simp only [Movable.get_id] at hid
  refine ⟨by simp [movable_eq, hid], ?_, ?_⟩
  · simp [movable_cmp, Movable.get_id, hid]
  · intro t
    simp [Movable.update_velocity, movable_eq, hid]

/-- C10 witness: the first allocated BlackHole (id 0) against the first
allocated World (id 0): equal ids across kinds, equal under PartialEq and
Ord, and no gravitational contribution in update_velocity. -/
theorem movable_identity_by_id_only_witness :
    (Movable.new ObjectType.BlackHole { blackholes := 0, worlds := 0 }).1.get_id =
      (Movable.new ObjectType.World { blackholes := 1, worlds := 0 }).1.get_id ∧
    movable_eq (Movable.new ObjectType.BlackHole { blackholes := 0, worlds := 0 }).1
      (Movable.new ObjectType.World { blackholes := 1, worlds := 0 }).1 = true ∧
    movable_cmp (Movable.new ObjectType.BlackHole { blackholes := 0, worlds := 0 }).1
      (Movable.new ObjectType.World { blackholes := 1, worlds := 0 }).1 =
      Ordering.eq ∧
    (Movable.new ObjectType.BlackHole
        { blackholes := 0, worlds := 0 }).1.update_velocity
      [(Movable.new ObjectType.World { blackholes := 1, worlds := 0 }).1] 1 =
      (Movable.new ObjectType.BlackHole
        { blackholes := 0, worlds := 0 }).1.velocity := by
  have hid : (Movable.new ObjectType.BlackHole
      { blackholes := 0, worlds := 0 }).1.get_id =
      (Movable.new ObjectType.World { blackholes := 1, worlds := 0 }).1.get_id := by
    simp [Movable.new, Movable.get_id, movableDefault]
  have H := movable_identity_by_id_only.2 _ _ hid
  exact ⟨hid, H.1, H.2.1, H.2.2 1⟩

/-- helper: a mass-weighted average of two values bounded by M in magnitude
is itself bounded by M in magnitude, for positive masses -/
theorem weighted_avg_abs_le (m1 m2 v1 v2 M : ℝ) (h1 : 0 < m1) (h2 : 0 < m2)
    (hv1 : |v1| ≤ M) (hv2 : |v2| ≤ M) :
    |(m1 * v1 + m2 * v2) / (m1 + m2)| ≤ M := by
  have hm : 0 < m1 + m2 := by linarith
  rw [abs_div, abs_of_pos hm, div_le_iff₀ hm]
  calc |m1 * v1 + m2 * v2| ≤ |m1 * v1| + |m2 * v2| := abs_add _ _
    _ = m1 * |v1| + m2 * |v2| := by
        rw [abs_mul, abs_mul, abs_of_pos h1, abs_of_pos h2]
    _ ≤ m1 * M + m2 * M := by
        have hx := mul_le_mul_of_nonneg_left hv1 h1.le
        have hy := mul_le_mul_of_nonneg_left hv2 h2.le
        linarith
    _ = M * (m1 + m2) := by ring

/-- C5: for two bodies of positive mass whose velocity components respect the
MAXVELOCITY invariant of the data model, the Movable produced by
generate_blackhole carries the summed mass, the mass-weighted average
position, and the mass-weighted average velocity (the set_velocity clamp
leaves an in-range average unchanged). -/
theorem generate_blackhole_conserves (one two : Movable) (c : Counters)
    (h1 : 0 < one.size.mass) (h2 : 0 < two.size.mass)
    (hv1 : |one.velocity.vx| ≤ MAXVELOCITY) (hv2 : |one.velocity.vy| ≤ MAXVELOCITY)
    (hv3 : |two.velocity.vx| ≤ MAXVELOCITY) (hv4 : |two.velocity.vy| ≤ MAXVELOCITY) :
    (generate_blackhole one two c).1.size.mass = one.size.mass + two.size.mass ∧
    (generate_blackhole one two c).1.position.x =
      (one.size.mass * one.position.x + two.size.mass * two.position.x) /
        (one.size.mass + two.size.mass) ∧
    (generate_blackhole one two c).1.position.y =
      (one.size.mass * one.position.y + two.size.mass * two.position.y) /
        (one.size.mass + two.size.mass) ∧
    (generate_blackhole one two c).1.velocity.vx =
      (one.size.mass * one.velocity.vx + two.size.mass * two.velocity.vx) /
        (one.size.mass + two.size.mass) ∧
    (generate_blackhole one two c).1.velocity.vy =
      (one.size.mass * one.velocity.vy + two.size.mass * two.velocity.vy) /
        (one.size.mass + two.size.mass) := by
  have hax := abs_le.mp
    (weighted_avg_abs_le one.size.mass two.size.mass one.velocity.vx
      two.velocity.vx MAXVELOCITY h1 h2 hv1 hv3)
  have hay := abs_le.mp
    (weighted_avg_abs_le one.size.mass two.size.mass one.velocity.vy
      two.velocity.vy MAXVELOCITY h1 h2 hv2 hv4)
  simp only [generate_blackhole, Movable.new, Movable.set_position,
    Movable.set_velocity, Movable.set_mass, Movable.build, movableDefault]
  refine ⟨trivial, trivial, trivial, ?_, ?_⟩
  · split_ifs with hneg
    · exact max_eq_left hax.1
    · exact min_eq_left hax.2
  · split_ifs with hneg
    · exact max_eq_left hay.1
    · exact min_eq_left hay.2

/-- C5 witness: merging the resting masses 10 at the origin and 20 at (5, 0)
yields mass 30 at position (10/3, 0) with velocity (0, 0). -/
theorem generate_blackhole_conserves_witness :
    (0 : ℝ) < bh1.size.mass ∧ (0 : ℝ) < bh2.size.mass ∧
    |bh1.velocity.vx| ≤ MAXVELOCITY ∧ |bh1.velocity.vy| ≤ MAXVELOCITY ∧
    |bh2.velocity.vx| ≤ MAXVELOCITY ∧ |bh2.velocity.vy| ≤ MAXVELOCITY ∧
    (generate_blackhole bh1 bh2 { blackholes := 0, worlds := 0 }).1.size.mass = 30 ∧
    (generate_blackhole bh1 bh2 { blackholes := 0, worlds := 0 }).1.position.x = 10 / 3 ∧
    (generate_blackhole bh1 bh2 { blackholes := 0, worlds := 0 }).1.position.y = 0 ∧
    (generate_blackhole bh1 bh2 { blackholes := 0, worlds := 0 }).1.velocity.vx = 0 ∧
    (generate_blackhole bh1 bh2 { blackholes := 0, worlds := 0 }).1.velocity.vy = 0 := by
  have ha : (0 : ℝ) < bh1.size.mass := by norm_num [bh1, movableDefault]
  have hb : (0 : ℝ) < bh2.size.mass := by norm_num [bh2, movableDefault]
  have hva : |bh1.velocity.vx| ≤ MAXVELOCITY := by
    norm_num [bh1, movableDefault, MAXVELOCITY]
  have hvb : |bh1.velocity.vy| ≤ MAXVELOCITY := by
    norm_num [bh1, movableDefault, MAXVELOCITY]
  have hvc : |bh2.velocity.vx| ≤ MAXVELOCITY := by
    norm_num [bh2, movableDefault, MAXVELOCITY]
  have hvd : |bh2.velocity.vy| ≤ MAXVELOCITY := by
    norm_num [bh2, movableDefault, MAXVELOCITY]
  have H := generate_blackhole_conserves bh1 bh2
    { blackholes := 0, worlds := 0 } ha hb hva hvb hvc hvd
  refine ⟨ha, hb, hva, hvb, hvc, hvd, ?_, ?_, ?_, ?_, ?_⟩
  · rw [H.1]; norm_num [bh1, bh2, movableDefault]
  · rw [H.2.1]; norm_num [bh1, bh2, movableDefault]
  · rw [H.2.2.1]; norm_num [bh1, bh2, movableDefault]
  · rw [H.2.2.2.1]; norm_num [bh1, bh2, movableDefault]
  · rw [H.2.2.2.2]; norm_num [bh1, bh2, movableDefault]

/-- helper: a body that did not move between frames yields no line segment -/
theorem gen_line_segment_of_stationary (p : Position)
    (hx : p.x_prev = p.x) (hy : p.y_prev = p.y) :
    p.gen_line_segment = none := by
  simp [Position.gen_line_segment, hx, hy]

/-- helper: minimum_distance propagates a missing left segment as None -/
theorem minimum_distance_none_of_left (one two : Position)
    (h : one.gen_line_segment = none) : minimum_distance one two = none := by
  simp [minimum_distance, h]

/-- helper: minimum_distance propagates a missing right segment as None -/
theorem minimum_distance_none_of_right (one two : Position)
    (h : two.gen_line_segment = none) : minimum_distance one two = none := by
  rcases h1 : one.gen_line_segment with _ | l1 <;> simp [minimum_distance, h1, h]

/-- C2 counterexample: body A stationary at the origin and body B swept from
(-100, 0) to (100, 0) with radius sum 5: collided is false in both argument
orders, because the stationary body yields no line segment and
minimum_distance returns None. The claim says collided returns true here. -/
theorem collided_stationary_sweep_counterexample :
    bodyA.size.radius + bodyB.size.radius = 5 ∧
    ¬ collided bodyA bodyB ∧ ¬ collided bodyB bodyA := by
  have hA : bodyA.position.gen_line_segment = none :=
    gen_line_segment_of_stationary _ rfl rfl
  refine ⟨by norm_num [bodyA, bodyB, movableDefault], ?_, ?_⟩
  · simp [collided, minimum_distance_none_of_left bodyA.position bodyB.position hA]
  · simp [collided, minimum_distance_none_of_right bodyB.position bodyA.position hA]

/-- C2 amended: when one of the two bodies did not move this frame, collided
returns false in both argument orders regardless of the sweep of the other
body; the swept-segment true verdict requires both bodies to have moved. -/
theorem collided_false_when_one_stationary (m o : Movable)
    (hx : m.position.x_prev = m.position.x)
    (hy : m.position.y_prev = m.position.y) :
    ¬ collided m o ∧ ¬ collided o m := by
  have hseg := gen_line_segment_of_stationary m.position hx hy
  constructor
  · simp [collided, minimum_distance_none_of_left m.position o.position hseg]
  · simp [collided, minimum_distance_none_of_right o.position m.position hseg]

/-- C2 witness: at the concrete scenario bodies, the stationary body A makes
collided false both ways. -/
theorem collided_false_when_one_stationary_witness :
    bodyA.position.x_prev = bodyA.position.x ∧
    bodyA.position.y_prev = bodyA.position.y ∧
    ¬ collided bodyA bodyB ∧ ¬ collided bodyB bodyA := by
  have H := collided_false_when_one_stationary bodyA bodyB rfl rfl
  exact ⟨rfl, rfl, H.1, H.2⟩

/-- C4 counterexample: two stationary bodies whose circles overlap (current
positions at distance 1, radius sum 5): the claim says the instantaneous
fallback makes collided true, but collided is false because minimum_distance
is None and the source returns false on None with no fallback. -/
theorem collided_no_instantaneous_fallback :
    Position.distance_to bodyA.position bodyC.position = 1 ∧
    bodyA.size.radius + bodyC.size.radius = 5 ∧
    ¬ collided bodyA bodyC := by
  have hA : bodyA.position.gen_line_segment = none :=
    gen_line_segment_of_stationary _ rfl rfl
  refine ⟨?_, by norm_num [bodyA, bodyC, movableDefault], ?_⟩
  · norm_num [Position.distance_to, bodyA, bodyC, movableDefault, Real.sqrt_one]
  · simp [collided, minimum_distance_none_of_left bodyA.position bodyC.position hA]

/-- C4 amended: when one or both bodies did not move this frame,
minimum_distance returns None and collided reports no collision; there is no
fallback to an instantaneous circle-overlap test. -/
theorem collided_false_when_not_moved (m o : Movable)
    (h : (m.position.x_prev = m.position.x ∧ m.position.y_prev = m.position.y) ∨
      (o.position.x_prev = o.position.x ∧ o.position.y_prev = o.position.y)) :
    minimum_distance m.position o.position = none ∧ ¬ collided m o := by
  have hmd : minimum_distance m.position o.position = none := by
    rcases h with ⟨hx, hy⟩ | ⟨hx, hy⟩
    · exact minimum_distance_none_of_left _ _
        (gen_line_segment_of_stationary _ hx hy)
    · exact minimum_distance_none_of_right _ _
        (gen_line_segment_of_stationary _ hx hy)
  refine ⟨hmd, ?_⟩
  simp [collided, hmd]

/-- C4 witness: the two stationary overlapping bodies of the counterexample
instantiate the amended claim. -/
theorem collided_false_when_not_moved_witness :
    (bodyA.position.x_prev = bodyA.position.x ∧
      bodyA.position.y_prev = bodyA.position.y) ∧
    minimum_distance bodyA.position bodyC.position = none ∧
    ¬ collided bodyA bodyC := by
  have H := collided_false_when_not_moved bodyA bodyC (Or.inl ⟨rfl, rfl⟩)
  exact ⟨⟨rfl, rfl⟩, H.1, H.2⟩

/-- C3: two non-degenerate segments that cross at an interior point do NOT
make minimum_distance return 0: segOne runs from (-1,-1) to (1,1) and segTwo
from (-1,1) to (1,-1); the determinant is 8 (nonzero) and the infinite lines
intersect at the origin, which lies inside both bounding boxes (the trailing
conjuncts), yet minimum_distance returns the endpoint distance 4 / sqrt 8,
because the source in-segment test demands min >= intersection and
max <= intersection, which no non-degenerate segment satisfies. -/
theorem minimum_distance_crossing_not_zero :
    minimum_distance segOne segTwo = some (4 / Real.sqrt 8) ∧
    (4 / Real.sqrt 8 : ℝ) ≠ 0 ∧
    min segOne.x segOne.x_prev ≤ 0 ∧ (0 : ℝ) ≤ max segOne.x segOne.x_prev ∧
    min segOne.y segOne.y_prev ≤ 0 ∧ (0 : ℝ) ≤ max segOne.y segOne.y_prev ∧
    min segTwo.x segTwo.x_prev ≤ 0 ∧ (0 : ℝ) ≤ max segTwo.x segTwo.x_prev ∧
    min segTwo.y segTwo.y_prev ≤ 0 ∧ (0 : ℝ) ≤ max segTwo.y segTwo.y_prev := by
  have hne : (4 / Real.sqrt 8 : ℝ) ≠ 0 := by positivity
  refine ⟨?_, hne, ?_, ?_, ?_, ?_, ?_, ?_, ?_, ?_⟩
  · norm_num [minimum_distance, Position.gen_line_segment,
      LineSegment.distance_to_pt, segOne, segTwo, min_def, max_def,
      abs_eq_max_neg]
  all_goals norm_num [segOne, segTwo, min_def, max_def]

end

end BlackHoleUniverse
